import Mathlib

/-!
Verification development for the privileged-execution / output-extraction /
recovery core of a small GUI front-end (single Python source file).

Shallow embedding conventions:
* Pure text-processing routines are translated to executable functions on
  `List Char` / `String`.
* Process spawning, filesystem checks and the settings file are modelled as
  explicit oracles passed in through small environment structures; every
  embedded operation additionally returns the list of argvs it spawned, so
  spawn-count claims are statable.
* Python exceptions become `Except` values (`RunErr` below); `raise` paths are
  `.error`, normal returns are `.ok`.
-/

namespace ZeroTierGui

/-! ### Output extractor (`extract_first_json`)

The source first runs `re.sub(r'\[sudo\][^\x7b\[]*', '', payload, flags=re.DOTALL)`
and then scans for the first balanced bracket region with a stack. -/

/-- The literal characters of the regex tag `[sudo]`. -/
def sudoTag : List Char := ['[', 's', 'u', 'd', 'o', ']']

/-- `[^\x7b\[]*` (greedy, DOTALL): drop characters up to the next `{` or `[`. -/
def dropToBracket (s : List Char) : List Char :=
  s.dropWhile (fun c => c != '{' && c != '[')

/-- One left-to-right pass of `re.sub(r'\[sudo\][^\x7b\[]*', '', payload)`:
at each position, if the literal tag `[sudo]` matches, the tag and the
following run of non-`{`/`[` characters are removed and scanning resumes
after the removed region; otherwise the character is kept.  The `fuel`
argument only makes the recursion structural: every step consumes at least
one character, so `s.length` fuel is always enough. -/
def sudoStripFuel : Nat → List Char → List Char
  | _, [] => []
  | 0, l => l
  | fuel + 1, c :: cs =>
    if (c :: cs).take 6 = sudoTag then
      sudoStripFuel fuel (dropToBracket ((c :: cs).drop 6))
    else
      c :: sudoStripFuel fuel cs

/-- The `re.sub` preprocessing step of `extract_first_json`. -/
def sudoStrip (s : List Char) : List Char := sudoStripFuel s.length s

/-- The bracket scan of `extract_first_json`: walk the characters keeping a
stack of currently-open bracket characters and the index recorded when the
stack last became non-empty (`start_idx`).  On a closing bracket with an
empty stack the character is skipped; on a mismatched pop the scan just
continues (the pop still happened); when a pop empties the stack after a
matching close, the recorded span is returned. -/
def scanAux : List Char → Nat → List Char → Option Nat → Option (Nat × Nat)
  | [], _, _, _ => none
  | c :: rest, i, stack, start? =>
    if c = '{' ∨ c = '[' then
      scanAux rest (i + 1) (c :: stack) (if stack.isEmpty then some i else start?)
    else if c = '}' ∨ c = ']' then
      match stack with
      | [] => scanAux rest (i + 1) [] start?
      | o :: stk =>
        if (o = '{' ∧ c ≠ '}') ∨ (o = '[' ∧ c ≠ ']') then
          scanAux rest (i + 1) stk start?
        else if stk.isEmpty then
          some (start?.getD 0, i)
        else
          scanAux rest (i + 1) stk start?
    else
      scanAux rest (i + 1) stack start?

/-- `extract_first_json(payload)`: strip `[sudo]` noise, then return the
substring `payload[start_idx : i + 1]` of the first scan span, or `none`. -/
def extract_first_json (payload : String) : Option String :=
  let p := sudoStrip payload.toList
  match scanAux p 0 [] none with
  | none => none
  | some (s, e) => some (String.mk ((p.drop s).take (e + 1 - s)))

/-! Spec-side notions used to state the extractor claims.  These follow the
claims' wording ("braces/brackets nest correctly", "a single balanced JSON
object"), not the source, and exist only to be compared with the code. -/

/-- Spec-side checker: the brackets of the text nest correctly — every closer
matches the most recent opener and all brackets are matched. -/
def specNestsCorrectly : List Char → List Char → Bool
  | [], [] => true
  | _ :: _, [] => false
  | stk, c :: cs =>
    if c = '{' ∨ c = '[' then specNestsCorrectly (c :: stk) cs
    else if c = '}' ∨ c = ']' then
      match stk with
      | [] => false
      | o :: stk2 =>
        if (o = '{' ∧ c = '}') ∨ (o = '[' ∧ c = ']') then specNestsCorrectly stk2 cs
        else false
    else specNestsCorrectly stk cs

/-- Spec-side checker: the text is one single balanced bracket structure —
it starts with an opener, every closer matches, and the stack becomes empty
exactly at the last character. -/
def scanOne : List Char → List Char → Bool
  | _, [] => false
  | stk, c :: cs =>
    if c = '{' ∨ c = '[' then scanOne (c :: stk) cs
    else if c = '}' ∨ c = ']' then
      match stk with
      | [] => false
      | o :: stk2 =>
        if (o = '{' ∧ c ≠ '}') ∨ (o = '[' ∧ c ≠ ']') then false
        else if stk2.isEmpty then cs.isEmpty
        else scanOne stk2 cs
    else if stk.isEmpty then false
    else scanOne stk cs

/-- A single balanced JSON object/array in the sense of the spec's balanced
bracket scan. -/
def singleBalanced (s : List Char) : Bool := scanOne [] s

/-- Decidable substring test (Python's `needle in hay`), on char lists. -/
def containsSeq (pat : List Char) : List Char → Bool
  | [] => pat.isEmpty
  | c :: cs => ((c :: cs).take pat.length = pat : Bool) || containsSeq pat cs

/-- Substring test on strings (Python's `needle in hay`). -/
def containsStr (hay pat : String) : Bool := containsSeq pat.toList hay.toList

/-- Python's `str.strip()`: remove leading and trailing whitespace. -/
def pyStrip (s : List Char) : List Char :=
  ((s.dropWhile Char.isWhitespace).reverse.dropWhile Char.isWhitespace).reverse

/-- `str.strip()` at `String` type. -/
def pyStripS (s : String) : String := String.mk (pyStrip s.toList)

/-! ### Command executor (`run_command`)

Python exceptions raised by `run_command` (and by `run_zerotier_cli`):
`FileNotFoundError` when the working directory is missing, and
`CalledProcessError(returncode, cmd, output=stdout)` on non-zero exit.
The `output` carried by `CalledProcessError` is the *raw* captured stdout. -/

/-- The failure modes of the embedded executor. -/
inductive RunErr where
  | fileNotFound (path : String)
  | called (returncode : Int) (output : String)
deriving DecidableEq

instance {ε α : Type} [DecidableEq ε] [DecidableEq α] : DecidableEq (Except ε α) := fun x y =>
  match x, y with
  | .ok a, .ok b =>
    if h : a = b then .isTrue (by rw [h]) else .isFalse (fun hh => by cases hh; exact h rfl)
  | .error a, .error b =>
    if h : a = b then .isTrue (by rw [h]) else .isFalse (fun hh => by cases hh; exact h rfl)
  | .ok _, .error _ => .isFalse (fun hh => by cases hh)
  | .error _, .ok _ => .isFalse (fun hh => by cases hh)

/-- Environment of `run_command`: `get_user()`, the `DEBUG_MODE` global, the
`os.path.exists` check and the spawned process (its exit code and captured
stdout, with stderr merged in as in the source's `stderr=STDOUT`). -/
structure CmdEnv where
  user : String
  debugMode : Bool
  pathExists : String → Bool
  spawn : List String → Int × String

/-- The literal credential-prompt banner `"[sudo] password for <user>: "`
(the source interpolates the *unstripped* `get_user()` here). -/
def bannerOf (user : String) : String := "[sudo] password for " ++ user ++ ": "

/-- Python's `str.replace(pat, "")`: remove every non-overlapping occurrence
of `pat`, scanning left to right.  The `fuel` argument only makes the
recursion structural (each step consumes at least one character, so
`s.length` fuel is always enough); a `pat = []` never occurs here, the
banner is never empty. -/
def removeAllFuel (pat : List Char) : Nat → List Char → List Char
  | _, [] => []
  | 0, l => l
  | fuel + 1, c :: cs =>
    if pat ≠ [] ∧ (c :: cs).take pat.length = pat then
      removeAllFuel pat fuel ((c :: cs).drop pat.length)
    else
      c :: removeAllFuel pat fuel cs

/-- `s.replace(pat, "")` as used for the banner strip. -/
def removeAll (pat : List Char) (s : List Char) : List Char :=
  removeAllFuel pat s.length s

/-- The two in-place argv reassignments of `run_command`:
`if use_sudo: command = ['sudo', '-S'] + command` followed by
`if not DEBUG_MODE: command = ['flatpak-spawn', '--host'] + command`. -/
def final_command (env : CmdEnv) (command : List String) (use_sudo : Bool) : List String :=
  let command := if use_sudo then ["sudo", "-S"] ++ command else command
  if env.debugMode = false then ["flatpak-spawn", "--host"] ++ command else command

/-- `run_command(command, use_sudo=True, cdw=None)`.  Returns the Python
result (`Except`) together with the list of argvs actually spawned, so that
"no process is spawned" is statable.  The default working directory is
`f"/home/\x7buser\x7d/.zerotier-one"` with `user = get_user().strip()`; the missing
directory check happens before any spawn; on exit code `0` the decoded
stdout has every occurrence of the credential-prompt banner removed; on a
non-zero exit the raised error carries the raw (pre-strip) output. -/
def run_command (env : CmdEnv) (command : List String) (use_sudo : Bool)
    (cdw : Option String) : Except RunErr String × List (List String) :=
  let cdwPath := cdw.getD ("/home/" ++ pyStripS env.user ++ "/.zerotier-one")
  if env.pathExists cdwPath = false then
    (.error (.fileNotFound cdwPath), [])
  else
    let cmd := final_command env command use_sudo
    match env.spawn cmd with
    | (rc, out) =>
      if rc ≠ 0 then (.error (.called rc out), [cmd])
      else (.ok (String.mk (removeAll (bannerOf env.user).toList out.toList)), [cmd])

/-! ### Backend CLI client (`run_zerotier_cli`) -/

/-- Environment of `run_zerotier_cli`: user, `DEBUG_MODE`, and the spawned
process.  The persisted `service_enabled` flag is passed separately, as the
result of `load_settings_no_class().get("service_enabled", True)` — `none`
models a settings file without the key (or an absent/unparsable file). -/
structure CliEnv where
  user : String
  debugMode : Bool
  spawn : List String → Int × String

/-- The argv built by `run_zerotier_cli` before the settings check:
`['sudo', '-S', './zerotier-cli', '-D/home/<user>/.zerotier-one'] + args`,
then the `flatpak-spawn --host` prefix unless `DEBUG_MODE`. -/
def cli_final_command (env : CliEnv) (args : List String) : List String :=
  let user := pyStripS env.user
  let command := ["sudo", "-S", "./zerotier-cli", "-D/home/" ++ user ++ "/.zerotier-one"] ++ args
  if env.debugMode = false then ["flatpak-spawn", "--host"] ++ command else command

/-- `run_zerotier_cli(*args)`: if the persisted `service_enabled` flag
(default `true` when absent) is false, return `""` without spawning;
otherwise spawn, raise `CalledProcessError` with the raw output on non-zero
exit, and return the decoded stdout *verbatim* (no banner strip) on success. -/
def run_zerotier_cli (env : CliEnv) (setting : Option Bool) (args : List String) :
    Except RunErr String × List (List String) :=
  let command := cli_final_command env args
  let serviceEnabled := setting.getD true
  if serviceEnabled = false then (.ok "", [])
  else
    match env.spawn command with
    | (rc, out) =>
      if rc ≠ 0 then (.error (.called rc out), [command])
      else (.ok out, [command])

/-! ### Service controller (`manage_service`, `get_service_status`) -/

/-- `manage_service(action, cdw=None)`: try the user-scope `systemctl --user
<action> zerotier-one` without sudo first; on `CalledProcessError` retry as
the system-scope `systemctl <action> zerotier-one` with sudo; if that also
fails with `CalledProcessError`, show an error dialog containing the
system-scope failure's stripped output and fall off the end (return `None`).
Only `CalledProcessError` is caught: a `FileNotFoundError` from either tier
propagates (the `.error` of the result).  The second component lists the
error-dialog messages shown. -/
def manage_service (env : CmdEnv) (action : String) (cdw : Option String) :
    Except RunErr (Option String) × List String :=
  let cdwPath := cdw.getD ("/home/" ++ pyStripS env.user)
  match (run_command env ["systemctl", "--user", action, "zerotier-one"] false (some cdwPath)).fst with
  | .ok result => (.ok (some result), [])
  | .error (.fileNotFound p) => (.error (.fileNotFound p), [])
  | .error (.called _ _) =>
    match (run_command env ["systemctl", action, "zerotier-one"] true (some cdwPath)).fst with
    | .ok result => (.ok (some result), [])
    | .error (.fileNotFound p) => (.error (.fileNotFound p), [])
    | .error (.called _ out) => (.ok none, ["Error: \x22" ++ pyStripS out ++ "\x22"])

/-- Python's `text.split(sep)` for a one-character separator (keeps empty
pieces, `"".split(sep) == [""]`). -/
def splitOnChar (sep : Char) : List Char → List (List Char)
  | [] => [[]]
  | c :: cs =>
    if c = sep then [] :: splitOnChar sep cs
    else
      match splitOnChar sep cs with
      | [] => [[c]]
      | h :: t => (c :: h) :: t

/-- Python's `entry.split("=", 1)` restricted to the `len == 2` case:
split at the first `=`, or `none` when the entry has no `=`. -/
def splitKV1 : List Char → Option (List Char × List Char)
  | [] => none
  | c :: cs =>
    if c = '=' then some ([], cs)
    else (splitKV1 cs).map (fun p => (c :: p.1, p.2))

/-- The `key=value` entries of a `show` dump, in line order (the source
stores them into a dict, so a later line overwrites an earlier one with the
same key). -/
def show_entries (showOut : String) : List (String × String) :=
  (splitOnChar '\n' showOut.toList).filterMap
    (fun e => (splitKV1 e).map (fun p => (String.mk p.1, String.mk p.2)))

/-- The parsing part of `get_service_status`, as a function of the `show`
output text: build the dict of `key=value` lines and index `"ActiveState"`.
Python dict indexing with a later-line overwrite means the *last*
`ActiveState` line wins; a `KeyError` (no such line) is `none`. -/
def get_service_status (showOut : String) : Option String :=
  (((show_entries showOut).reverse.find? (fun p => p.1 == "ActiveState")).map (fun p => p.2))

/-! ### Recovery procedure (`check_for_errors`, `resolve_unknown_error`) -/

/-- Outcome of one probe (`run_zerotier_cli("listnetworks")`): success,
`CalledProcessError` with its exit code and output, or `FileNotFoundError`. -/
inductive ProbeOutcome where
  | ok (out : String)
  | fail (returncode : Int) (output : String)
  | notFound (msg : String)
deriving DecidableEq

/-- What the `while True` body of `check_for_errors` does next after one
probe: leave the loop with no error, reinstall the backend and probe again
(`continue`), enter `resolve_unknown_error` and then leave the loop, or
leave the loop after an unhandled exit code. -/
inductive CheckNext where
  | done
  | reinstallThenReprobe
  | resolveThenDone
  | stop
deriving DecidableEq

/-- Error-dialog text on exit code 2. -/
def accessErrMsg : String :=
  "This user doesn\x27t have access to ZeroTier! Re-installing the backend..."

/-- Error-dialog text on exit code 127 or `FileNotFoundError`. -/
def notInstalledMsg : String :=
  "ZeroTier isn\x27t installed! Re-installing the backend..."

/-- One iteration of the `while True` loop of `check_for_errors`, given the
probe's outcome; the second component lists the error dialogs shown.
Exit code 2 and 127 (and `FileNotFoundError`) reinstall and `continue`;
exit code 1 calls `resolve_unknown_error()` and then reaches the final
`break`; any other non-zero code reaches the `break` inside the handler. -/
def check_step : ProbeOutcome → CheckNext × List String
  | .ok _ => (.done, [])
  | .fail rc _ =>
    if rc = 2 then (.reinstallThenReprobe, [accessErrMsg])
    else if rc = 1 then (.resolveThenDone, [])
    else if rc = 127 then (.reinstallThenReprobe, [notInstalledMsg])
    else (.stop, [])
  | .notFound _ => (.reinstallThenReprobe, [notInstalledMsg])

/-- What `resolve_unknown_error` does after `manage_service("start")`. -/
inductive ResolveNext where
  | reinstall
  | solved
  | reinstallPersist
  | raised (e : RunErr)
  | attrError
deriving DecidableEq

/-- `resolve_unknown_error`, as a function of the results of its four
sequenced calls: `manage_service("start")`, the `systemctl --user is-active`
query, the `journalctl` log fetch, and the retried `listnetworks` probe.
The is-active output is `.strip()`ped; if it contains `"inactive"` or
`"failed"` the next step is the reinstall procedure; otherwise the probe is
retried and either reports success or reinstalls.  The `journalctl` call is
only logged and its `CalledProcessError` is caught, but the handler reads
`.returncode`/`.output`, so a `FileNotFoundError` there escapes as an
`AttributeError` (`.attrError`).  An exception from an earlier call
propagates (`.raised`). -/
def resolve_step (start : Except RunErr (Option String))
    (isActive journal retry : Except RunErr String) : ResolveNext :=
  match start with
  | .error e => .raised e
  | .ok _ =>
    match isActive with
    | .error e => .raised e
    | .ok out =>
      let running := pyStripS out
      match journal with
      | .error (.fileNotFound _) => .attrError
      | _ =>
        if containsStr running "inactive" || containsStr running "failed" then .reinstall
        else
          match retry with
          | .ok _ => .solved
          | .error (.called _ _) => .reinstallPersist
          | .error e => .raised e

/-! ### Concrete environments used by counterexamples and witnesses -/

/-- Both `systemctl` tiers fail: every spawn exits 1 with output `"sysfail\n"`. -/
def envBothFail : CmdEnv := ⟨"u", true, fun _ => true, fun _ => (1, "sysfail\n")⟩

/-- `DEBUG_MODE = False`, spawns fail with exit 1. -/
def envDebugOff : CmdEnv := ⟨"u", false, fun _ => true, fun _ => (1, "")⟩

/-- The working directory never exists. -/
def envNoDir : CmdEnv := ⟨"u", true, fun _ => false, fun _ => (0, "")⟩

/-- Successful spawn whose output carries the credential-prompt banner twice. -/
def envStrip : CmdEnv :=
  ⟨"u", true, fun _ => true, fun _ => (0, "[sudo] password for u: hi [sudo] password for u: there")⟩

/-- Failing spawn whose raw output carries the banner. -/
def envRawErr : CmdEnv := ⟨"u", true, fun _ => true, fun _ => (1, "[sudo] password for u: err")⟩

/-- CLI environment for the short-circuit witness. -/
def envCli : CliEnv := ⟨"u", false, fun _ => (0, "netout")⟩

/-- CLI environment whose spawn succeeds with a banner-polluted output. -/
def envCliBanner : CliEnv := ⟨"u", true, fun _ => (0, "[sudo] password for u: netdata")⟩

/-! ### Claims -/

/-- C1: the claim says `extract_first_json` never returns a syntactically
unbalanced substring.  The code does: on `"\x7b[\x7d\x7d"` the closer `]`-mismatch
pops the `[` and scanning continues, so the later matching `\x7d` empties the
stack and the whole span — whose brackets do not nest correctly — is
returned.  This also contradicts the function's own docstring ("a clean
JSON string suitable for json.loads(), or None"). -/
theorem c1_unbalanced_substring_returned :
    extract_first_json (String.mk ['{', '[', '}', '}']) =
      some (String.mk ['{', '[', '}', '}']) ∧
    specNestsCorrectly [] ['{', '[', '}', '}'] = false := by decide

/-- C2: in the recovery procedure, a probe failing with exit code 2 makes
reinstalling the next step; a probe failing with exit code 1 enters the
service-start path (`resolve_unknown_error`); and inside that path, an
`is-active` report whose stripped text contains `"inactive"` or `"failed"`
makes reinstalling the next step (provided the intermediate `journalctl`
call did not itself blow up, which the source lets escape). -/
theorem c2_recovery_transitions :
    (∀ out : String, check_step (.fail 2 out) = (.reinstallThenReprobe, [accessErrMsg])) ∧
    (∀ out : String, check_step (.fail 1 out) = (.resolveThenDone, [])) ∧
    (∀ (v : Option String) (out : String) (journal retry : Except RunErr String),
      (∀ p, journal ≠ .error (.fileNotFound p)) →
      (containsStr (pyStripS out) "inactive" = true ∨ containsStr (pyStripS out) "failed" = true) →
      resolve_step (.ok v) (.ok out) journal retry = .reinstall) := by
  refine ⟨fun out => rfl, fun out => rfl, ?_⟩
  intro v out journal retry hj hc
  rcases journal with e | s
  · cases e with
    | fileNotFound p => exact absurd rfl (hj p)
    | called rc o =>
      simp only [resolve_step]
      rcases hc with h | h <;> simp [h]
  · simp only [resolve_step]
    rcases hc with h | h <;> simp [h]

/-- Witness for C2 at concrete inputs. -/
theorem c2_recovery_transitions_witness :
    check_step (.fail 2 "boom") = (.reinstallThenReprobe, [accessErrMsg]) ∧
    check_step (.fail 1 "boom") = (.resolveThenDone, []) ∧
    resolve_step (.ok none) (.ok " failed\n") (.ok "") (.error (.called 1 "x")) = .reinstall :=
  ⟨c2_recovery_transitions.1 "boom", c2_recovery_transitions.2.1 "boom",
   c2_recovery_transitions.2.2 none " failed\n" (.ok "") (.error (.called 1 "x"))
     (fun _ h => Except.noConfusion h) (Or.inr (by decide))⟩

/-- C3 counterexample: with both `systemctl` tiers failing (exit 1), the
claim says the system-scope failure's output is surfaced to the caller as
an error; in fact `manage_service` shows an error dialog and returns `None`
to its caller — the caller receives a normal non-error result carrying
neither the output nor an exception. -/
theorem c3_both_tiers_fail_cex :
    (run_command envBothFail ["systemctl", "--user", "start", "zerotier-one"] false
      (some "/home/u")).fst = .error (.called 1 "sysfail\n") ∧
    (run_command envBothFail ["systemctl", "start", "zerotier-one"] true
      (some "/home/u")).fst = .error (.called 1 "sysfail\n") ∧
    manage_service envBothFail "start" none = (.ok none, ["Error: \x22sysfail\x22"]) := by
  decide

/-- C3 (amended): `manage_service` tries the user-scope invocation first and
returns its output on success; on `CalledProcessError` it falls back to the
privileged system-scope invocation and returns its output on success; when
both tiers fail it shows an error dialog containing the system-scope
failure's stripped output and returns `None` to the caller — no output
string and no exception reach the caller. -/
theorem c3_two_tier_fallback :
    (∀ (env : CmdEnv) (action : String) (cdw : Option String) (s : String),
      (run_command env ["systemctl", "--user", action, "zerotier-one"] false
        (some (cdw.getD ("/home/" ++ pyStripS env.user)))).fst = .ok s →
      manage_service env action cdw = (.ok (some s), [])) ∧
    (∀ (env : CmdEnv) (action : String) (cdw : Option String) (rc1 : Int) (o1 s : String),
      (run_command env ["systemctl", "--user", action, "zerotier-one"] false
        (some (cdw.getD ("/home/" ++ pyStripS env.user)))).fst = .error (.called rc1 o1) →
      (run_command env ["systemctl", action, "zerotier-one"] true
        (some (cdw.getD ("/home/" ++ pyStripS env.user)))).fst = .ok s →
      manage_service env action cdw = (.ok (some s), [])) ∧
    (∀ (env : CmdEnv) (action : String) (cdw : Option String) (rc1 : Int) (o1 : String)
        (rc2 : Int) (o2 : String),
      (run_command env ["systemctl", "--user", action, "zerotier-one"] false
        (some (cdw.getD ("/home/" ++ pyStripS env.user)))).fst = .error (.called rc1 o1) →
      (run_command env ["systemctl", action, "zerotier-one"] true
        (some (cdw.getD ("/home/" ++ pyStripS env.user)))).fst = .error (.called rc2 o2) →
      manage_service env action cdw = (.ok none, ["Error: \x22" ++ pyStripS o2 ++ "\x22"])) := by
  refine ⟨?_, ?_, ?_⟩
  · intro env action cdw s h1
    simp [manage_service, h1]
  · intro env action cdw rc1 o1 s h1 h2
    simp [manage_service, h1, h2]
  · intro env action cdw rc1 o1 rc2 o2 h1 h2
    simp [manage_service, h1, h2]

/-- Witness for C3's amended theorem at a concrete both-tiers-fail input. -/
theorem c3_two_tier_fallback_witness :
    manage_service envBothFail "start" none =
      (.ok none, ["Error: \x22" ++ pyStripS "sysfail\n" ++ "\x22"]) :=
  c3_two_tier_fallback.2.2 envBothFail "start" none 1 "sysfail\n" 1 "sysfail\n"
    (by decide) (by decide)

/-- C4 counterexample: the claim's prepend order would spawn
`['sudo', '-S', 'flatpak-spawn', '--host', 'x']`; the code prepends the
privilege-escalation prefix first and the sandbox-hop prefix second, so the
spawned argv is `['flatpak-spawn', '--host', 'sudo', '-S', 'x']`. -/
theorem c4_prefix_order_cex :
    (run_command envDebugOff ["x"] true none).snd =
      [["flatpak-spawn", "--host", "sudo", "-S", "x"]] ∧
    (run_command envDebugOff ["x"] true none).snd ≠
      [["sudo", "-S", "flatpak-spawn", "--host", "x"]] := by decide

/-- C4 (amended): the final argv is built by prepending, in this order,
(1) when privileged, the privilege-escalation prefix `sudo -S` (the `-S`
flag forces the secret to be read from standard input), then (2) the
sandbox-hop prefix `flatpak-spawn --host` unless the debug flag disables
it; hence the sandbox-hop prefix precedes the privilege-escalation prefix
in the spawned argv. -/
theorem c4_prefix_order_amended :
    ∀ (env : CmdEnv) (command : List String) (use_sudo : Bool) (cdw : Option String),
      env.pathExists (cdw.getD ("/home/" ++ pyStripS env.user ++ "/.zerotier-one")) = true →
      (run_command env command use_sudo cdw).snd =
        [(if env.debugMode = false then ["flatpak-spawn", "--host"] else []) ++
         (if use_sudo then ["sudo", "-S"] else []) ++ command] := by
  intro env command use_sudo cdw h
  have hfc : final_command env command use_sudo =
      (if env.debugMode = false then ["flatpak-spawn", "--host"] else []) ++
      (if use_sudo then ["sudo", "-S"] else []) ++ command := by
    unfold final_command
    cases use_sudo <;> cases hd : env.debugMode <;> simp [hd]
  rcases hs : env.spawn (final_command env command use_sudo) with ⟨rc, out⟩
  simp [run_command, h, hs]
  split <;> simp [hfc]

/-- Witness for C4's amended theorem: privileged, debug off. -/
theorem c4_prefix_order_amended_witness :
    (run_command envDebugOff ["x"] true none).snd =
      [["flatpak-spawn", "--host"] ++ ["sudo", "-S"] ++ ["x"]] :=
  c4_prefix_order_amended envDebugOff ["x"] true none rfl

/-- C5: with the persisted `service_enabled` flag read as `false`,
`run_zerotier_cli` returns `""` and spawns nothing; an absent flag behaves
exactly like `true` (the `.get("service_enabled", True)` default). -/
theorem c5_disabled_short_circuit :
    (∀ (env : CliEnv) (setting : Option Bool) (args : List String),
      setting = some false → run_zerotier_cli env setting args = (.ok "", [])) ∧
    (∀ (env : CliEnv) (args : List String),
      run_zerotier_cli env none args = run_zerotier_cli env (some true) args) := by
  refine ⟨?_, fun env args => rfl⟩
  intro env setting args h
  subst h
  rfl

/-- Witness for C5 at a concrete input: zero spawned argvs. -/
theorem c5_disabled_short_circuit_witness :
    run_zerotier_cli envCli (some false) ["listnetworks"] = (.ok "", []) :=
  c5_disabled_short_circuit.1 envCli (some false) ["listnetworks"] rfl

/-- C6: a missing working directory makes `run_command` raise
`FileNotFoundError` with no process spawned (empty spawn list). -/
theorem c6_missing_dir_no_spawn :
    ∀ (env : CmdEnv) (command : List String) (use_sudo : Bool) (cdw : Option String),
      env.pathExists (cdw.getD ("/home/" ++ pyStripS env.user ++ "/.zerotier-one")) = false →
      run_command env command use_sudo cdw =
        (.error (.fileNotFound (cdw.getD ("/home/" ++ pyStripS env.user ++ "/.zerotier-one"))), []) := by
  intro env command use_sudo cdw h
  simp [run_command, h]

/-- Witness for C6 at a concrete environment without the directory. -/
theorem c6_missing_dir_no_spawn_witness :
    run_command envNoDir ["zerotier-cli"] true none =
      (.error (.fileNotFound "/home/u/.zerotier-one"), []) :=
  c6_missing_dir_no_spawn envNoDir ["zerotier-cli"] true none rfl

/-- C7: on a non-zero exit `run_command` raises `CalledProcessError`
carrying the exit code and the *raw* captured output; on a zero exit it
returns the output with every occurrence of the credential-prompt banner
for the current user removed. -/
theorem c7_raw_error_stripped_success :
    ∀ (env : CmdEnv) (command : List String) (use_sudo : Bool) (cdw : Option String)
      (rc : Int) (out : String),
      env.pathExists (cdw.getD ("/home/" ++ pyStripS env.user ++ "/.zerotier-one")) = true →
      env.spawn (final_command env command use_sudo) = (rc, out) →
      ((rc ≠ 0 → run_command env command use_sudo cdw =
          (.error (.called rc out), [final_command env command use_sudo])) ∧
       (rc = 0 → run_command env command use_sudo cdw =
          (.ok (String.mk (removeAll (bannerOf env.user).toList out.toList)),
           [final_command env command use_sudo]))) := by
  intro env command use_sudo cdw rc out h hs
  constructor <;> intro hrc <;> simp [run_command, h, hs, hrc]

/-- Witness for C7: a failing spawn keeps the banner in the carried output;
a zero-exit spawn has both banner occurrences removed. -/
theorem c7_raw_error_stripped_success_witness :
    run_command envRawErr ["x"] true none =
      (.error (.called 1 "[sudo] password for u: err"), [["sudo", "-S", "x"]]) ∧
    run_command envStrip ["x"] true none = (.ok "hi there", [["sudo", "-S", "x"]]) :=
  ⟨(c7_raw_error_stripped_success envRawErr ["x"] true none 1
      "[sudo] password for u: err" rfl rfl).1 (by decide),
   (c7_raw_error_stripped_success envStrip ["x"] true none 0
      "[sudo] password for u: hi [sudo] password for u: there" rfl rfl).2 rfl⟩

/-- C9: with the service enabled and a zero exit, `run_zerotier_cli`
returns the spawned tool's decoded stdout verbatim — the credential-prompt
banner is not stripped (that strip lives only in `run_command`, which
`run_zerotier_cli` does not call). -/
theorem c9_cli_output_verbatim :
    ∀ (env : CliEnv) (setting : Option Bool) (args : List String) (out : String),
      setting.getD true = true →
      env.spawn (cli_final_command env args) = (0, out) →
      run_zerotier_cli env setting args = (.ok out, [cli_final_command env args]) := by
  intro env setting args out h hs
  simp [run_zerotier_cli, h, hs]

/-- Witness for C9: the returned string still contains the sudo banner. -/
theorem c9_cli_output_verbatim_witness :
    run_zerotier_cli envCliBanner (some true) ["listnetworks"] =
      (.ok "[sudo] password for u: netdata",
       [["sudo", "-S", "./zerotier-cli", "-D/home/u/.zerotier-one", "listnetworks"]]) :=
  c9_cli_output_verbatim envCliBanner (some true) ["listnetworks"]
    "[sudo] password for u: netdata" rfl rfl

/-- C10: `get_service_status` fails with a lookup error (models Python's
`KeyError`) exactly when the `show` output has no `ActiveState=...` line;
when it returns a state, that state is the value of an `ActiveState` line;
and `"ActiveState=active\nSubState=running"` yields `"active"`. -/
theorem c10_active_state_lookup :
    (∀ s : String, get_service_status s = none ↔
      ∀ p ∈ show_entries s, p.1 ≠ "ActiveState") ∧
    (∀ (s v : String), get_service_status s = some v →
      ∃ p ∈ show_entries s, p = ("ActiveState", v)) ∧
    get_service_status "ActiveState=active\nSubState=running" = some "active" := by
  refine ⟨?_, ?_, by decide⟩
  · intro s
    simp [get_service_status, List.find?_eq_none]
  · intro s v h
    simp only [get_service_status, Option.map_eq_some'] at h
    obtain ⟨q, hfind, hv⟩ := h
    have hq := List.find?_some hfind
    have hmem : q ∈ (show_entries s).reverse := List.mem_of_find?_eq_some hfind
    refine ⟨q, List.mem_reverse.mp hmem, ?_⟩
    have h1 : q.1 = "ActiveState" := by simpa using hq
    calc q = (q.1, q.2) := rfl
      _ = ("ActiveState", v) := by rw [h1, hv]

/-- Witness for C10's lookup direction at a concrete input. -/
theorem c10_active_state_lookup_witness :
    ∃ p ∈ show_entries "ActiveState=active", p = ("ActiveState", "active") :=
  c10_active_state_lookup.2.1 "ActiveState=active" "active" (by decide)

/-! ### Helper lemmas for the extractor claim C8 -/

/-- If the tag `[sudo]` occurs nowhere in `s`, the `re.sub` pass is the
identity (for any amount of fuel: without a match each step just copies). -/
lemma sudoStripFuel_id_of_no_tag :
    ∀ (fuel : Nat) (s : List Char), containsSeq sudoTag s = false →
      sudoStripFuel fuel s = s := by
  intro fuel
  induction fuel with
  | zero => intro s _; cases s <;> rfl
  | succ n ih =>
    intro s h
    cases s with
    | nil => rfl
    | cons c cs =>
      simp only [containsSeq, Bool.or_eq_false_iff] at h
      obtain ⟨h1, h2⟩ := h
      have h1' : ¬((c :: cs).take 6 = sudoTag) := by
        simpa [sudoTag] using h1
      simp only [sudoStripFuel, if_neg h1']
      rw [ih cs h2]

/-- A text without `[` cannot contain the tag `[sudo]`. -/
lemma containsSeq_sudoTag_eq_false :
    ∀ s : List Char, '[' ∉ s → containsSeq sudoTag s = false := by
  intro s
  induction s with
  | nil => intro _; rfl
  | cons c cs ih =>
    intro h
    simp only [containsSeq, Bool.or_eq_false_iff]
    refine ⟨?_, ih (fun hm => h (List.mem_cons_of_mem _ hm))⟩
    rw [decide_eq_false_iff_not]
    intro heq
    have hc : c = '[' := by
      have : c :: cs.take 5 = sudoTag := by simpa [List.take_succ_cons] using heq
      exact (List.cons.injEq _ _ _ _ ▸ this).1
    exact h (hc ▸ List.mem_cons_self c cs)

/-- Dropping up to the next bracket skips over a bracket-free block. -/
lemma dropToBracket_append (mid rest : List Char)
    (hmid : ∀ x ∈ mid, x ≠ '{' ∧ x ≠ '[') :
    dropToBracket (mid ++ rest) = dropToBracket rest := by
  induction mid with
  | nil => rfl
  | cons c cs ih =>
    have hc := hmid c (List.mem_cons_self c cs)
    have hp : (c != '{' && c != '[') = true := by
      simp [bne_iff_ne, hc.1, hc.2]
    simp only [dropToBracket, List.cons_append, List.dropWhile_cons, hp, if_true]
    exact ih (fun x hx => hmid x (List.mem_cons_of_mem _ hx))

/-- Dropping up to the next bracket stops at an opening bracket. -/
lemma dropToBracket_of_head (c : Char) (cs : List Char) (hc : c = '{' ∨ c = '[') :
    dropToBracket (c :: cs) = c :: cs := by
  rcases hc with h | h <;> subst h <;> rfl

/-- One `re.sub` match: the leading tag and the following bracket-free run
are removed. -/
lemma sudoStripFuel_tag (fuel : Nat) (rest : List Char) :
    sudoStripFuel (fuel + 1) (sudoTag ++ rest) = sudoStripFuel fuel (dropToBracket rest) := rfl

/-- The `re.sub` pass removes exactly the banner when the payload is a
bracket-headed, tag-free text. -/
lemma sudoStrip_banner (mid cs : List Char) (c : Char)
    (hmid : ∀ x ∈ mid, x ≠ '{' ∧ x ≠ '[')
    (hc : c = '{' ∨ c = '[')
    (hobj : containsSeq sudoTag (c :: cs) = false) :
    sudoStrip (sudoTag ++ mid ++ (c :: cs)) = c :: cs := by
  rw [List.append_assoc]
  unfold sudoStrip
  rcases hL : (sudoTag ++ (mid ++ (c :: cs))).length with _ | n
  · simp [sudoTag] at hL
  · rw [sudoStripFuel_tag, dropToBracket_append mid _ hmid,
      dropToBracket_of_head c cs hc]
    exact sudoStripFuel_id_of_no_tag n (c :: cs) hobj

/-- While the stack is non-empty and the remaining text closes it exactly at
its last character with every pop matching, the scan returns the recorded
start and the index of that last character. -/
lemma scanAux_run :
    ∀ (rest stk : List Char) (i s0 : Nat), stk ≠ [] → scanOne stk rest = true →
      scanAux rest i stk (some s0) = some (s0, i + rest.length - 1) := by
  intro rest
  induction rest with
  | nil =>
    intro stk i s0 _ h
    simp [scanOne] at h
  | cons c cs ih =>
    intro stk i s0 hstk h
    have hne : stk.isEmpty = false := by
      cases stk with
      | nil => exact absurd rfl hstk
      | cons o stk2 => rfl
    by_cases hopen : c = '{' ∨ c = '['
    · simp only [scanOne, if_pos hopen] at h
      simp only [scanAux, if_pos hopen, hne, Bool.false_eq_true, if_false]
      rw [ih (c :: stk) (i + 1) s0 (List.cons_ne_nil c stk) h]
      simp only [Option.some.injEq, Prod.mk.injEq, List.length_cons, true_and]
      omega
    · by_cases hclose : c = '}' ∨ c = ']'
      · cases stk with
        | nil => exact absurd rfl hstk
        | cons o stk2 =>
          simp only [scanOne, if_neg hopen, if_pos hclose] at h
          by_cases hmis : (o = '{' ∧ c ≠ '}') ∨ (o = '[' ∧ c ≠ ']')
          · rw [if_pos hmis] at h
            exact absurd h (by simp)
          · rw [if_neg hmis] at h
            simp only [scanAux, if_neg hopen, if_pos hclose, if_neg hmis]
            by_cases h2 : stk2.isEmpty = true
            · rw [if_pos h2] at h
              have hcs : cs = [] := by
                cases cs with
                | nil => rfl
                | cons d ds => simp at h
              subst hcs
              simp [h2]
            · rw [if_neg h2] at h
              rw [if_neg h2]
              have hstk2 : stk2 ≠ [] := by
                cases stk2 with
                | nil => simp at h2
                | cons _ _ => exact List.cons_ne_nil _ _
              rw [ih stk2 (i + 1) s0 hstk2 h]
              simp only [Option.some.injEq, Prod.mk.injEq, List.length_cons, true_and]
              omega
      · simp only [scanOne, if_neg hopen, if_neg hclose, hne, Bool.false_eq_true, if_false] at h
        simp only [scanAux, if_neg hopen, if_neg hclose]
        rw [ih stk (i + 1) s0 hstk h]
        simp only [Option.some.injEq, Prod.mk.injEq, List.length_cons, true_and]
        omega

/-- A single balanced structure starts with an opening bracket. -/
lemma singleBalanced_shape (s : List Char) (h : singleBalanced s = true) :
    ∃ c cs, s = c :: cs ∧ (c = '{' ∨ c = '[') := by
  cases s with
  | nil => simp [singleBalanced, scanOne] at h
  | cons c cs =>
    by_cases hopen : c = '{' ∨ c = '['
    · exact ⟨c, cs, rfl, hopen⟩
    · exfalso
      by_cases hclose : c = '}' ∨ c = ']' <;>
        simp [singleBalanced, scanOne, hopen, hclose] at h

/-- On a single balanced structure the scan returns the whole span. -/
lemma scanAux_singleBalanced (s : List Char) (h : singleBalanced s = true) :
    scanAux s 0 [] none = some (0, s.length - 1) := by
  obtain ⟨c, cs, rfl, hc⟩ := singleBalanced_shape _ h
  have h' : scanOne [c] cs = true := by
    simpa only [singleBalanced, scanOne, if_pos hc] using h
  cases cs with
  | nil => simp [scanOne] at h'
  | cons d ds =>
    rw [scanAux, if_pos hc]
    have h0 : (if ([] : List Char).isEmpty = true then some 0 else (none : Option Nat)) =
        some 0 := rfl
    rw [h0, scanAux_run (d :: ds) [c] (0 + 1) 0 (List.cons_ne_nil c []) h']
    simp only [Option.some.injEq, Prod.mk.injEq, List.length_cons, true_and]
    omega

/-- Every non-bracket stream scans to no span at all. -/
lemma scanAux_none_of_no_brackets :
    ∀ (s : List Char) (i : Nat),
      (∀ c ∈ s, c ≠ '{' ∧ c ≠ '}' ∧ c ≠ '[' ∧ c ≠ ']') →
      scanAux s i [] none = none := by
  intro s
  induction s with
  | nil => intro i _; rfl
  | cons c cs ih =>
    intro i h
    have hc := h c (List.mem_cons_self c cs)
    have hopen : ¬(c = '{' ∨ c = '[') := by
      rintro (h1 | h1)
      · exact hc.1 h1
      · exact hc.2.2.1 h1
    have hclose : ¬(c = '}' ∨ c = ']') := by
      rintro (h1 | h1)
      · exact hc.2.1 h1
      · exact hc.2.2.2 h1
    simp only [scanAux, if_neg hopen, if_neg hclose]
    exact ih (i + 1) (fun x hx => h x (List.mem_cons_of_mem _ hx))

/-- C8 counterexample: `\x7b"a":"[sudo]"\x7d` is a single balanced JSON object
(in the spec's bracket-scan sense), yet on a sudo-prompt banner followed by
that object `extract_first_json` returns `none` instead of the object's
substring: the global `re.sub` also rewrites the tag occurrence *inside*
the object, stripping `[sudo]"\x7d` and leaving the unbalanced `\x7b"a":"`. -/
theorem c8_tagged_object_cex :
    singleBalanced "\x7b\"a\":\"[sudo]\"\x7d".toList = true ∧
    extract_first_json ("[sudo] password for u: \n" ++ "\x7b\"a\":\"[sudo]\"\x7d") = none ∧
    extract_first_json ("[sudo] password for u: \n" ++ "\x7b\"a\":\"[sudo]\"\x7d") ≠
      some "\x7b\"a\":\"[sudo]\"\x7d" := by decide

/-- C8 (amended): for any text that is a sudo-prompt banner (the `[sudo]`
tag followed by bracket-free prompt text) followed by a single balanced
JSON structure (in the spec's bracket-scan sense) *that does not itself
contain the literal tag `[sudo]`*, `extract_first_json` returns exactly
that structure's substring — the tag-freedom proviso is forced by the
counterexample above, since the global `re.sub` also rewrites tag
occurrences inside the object; and for any text containing no bracket
characters it returns `none`. -/
theorem c8_banner_then_json :
    (∀ mid obj : List Char,
      (∀ x ∈ mid, x ≠ '{' ∧ x ≠ '[') →
      singleBalanced obj = true →
      containsSeq sudoTag obj = false →
      extract_first_json (String.mk (sudoTag ++ mid ++ obj)) = some (String.mk obj)) ∧
    (∀ s : String, (∀ c ∈ s.toList, c ≠ '{' ∧ c ≠ '}' ∧ c ≠ '[' ∧ c ≠ ']') →
      extract_first_json s = none) := by
  constructor
  · intro mid obj hmid hbal htag
    obtain ⟨c, cs, rfl, hc⟩ := singleBalanced_shape _ hbal
    have hstrip : sudoStrip ((String.mk (sudoTag ++ mid ++ (c :: cs))).toList) = c :: cs :=
      sudoStrip_banner mid cs c hmid hc htag
    simp only [extract_first_json, hstrip, scanAux_singleBalanced _ hbal]
    simp [List.take_length]
  · intro s h
    have h1 : containsSeq sudoTag s.toList = false :=
      containsSeq_sudoTag_eq_false s.toList (fun hm => (h _ hm).2.2.1 rfl)
    have h2 : sudoStrip s.toList = s.toList := sudoStripFuel_id_of_no_tag _ _ h1
    simp only [extract_first_json, h2, scanAux_none_of_no_brackets s.toList 0 h]

/-- Witness for C8 at the spec's concrete example. -/
theorem c8_banner_then_json_witness :
    extract_first_json "[sudo] password for u: \n\x7b\"a\":1\x7d" = some "\x7b\"a\":1\x7d" :=
  c8_banner_then_json.1 " password for u: \n".toList "\x7b\"a\":1\x7d".toList
    (by decide) (by decide) (by decide)

end ZeroTierGui
